import Mathlib

/-!
Verification of the FinalsArc study-material ingestion and generation
pipeline.  The definitions below are shallow embeddings of the Python
source files (`src/core/question_gen.py`, `src/core/ai_tutor.py`,
`src/processors/*.py`, `src/utils/validators.py`, `src/app.py`):
pure functions become Lean functions, the stateful tutor is modelled by
explicit state passing, Python dicts become association lists, and
calls into external libraries (the LLM client, `json.loads`, the file
system) become function parameters over which the theorems quantify.
-/

namespace FinalsArc

/-! ## Python primitives shared by several components -/

/-- Python whitespace characters recognised by `str.strip` / `str.split`
(ASCII range, which covers all inputs considered here). -/
def pyIsSpace (c : Char) : Bool :=
  c = ' ' || c = '\t' || c = '\n' || c = '\r' || c = '\x0b' || c = '\x0c'

/-- Python `str.strip()`: remove leading and trailing whitespace. -/
def pyStrip (s : String) : String :=
  String.mk (((s.data.dropWhile pyIsSpace).reverse.dropWhile pyIsSpace).reverse)

/-- Python `str.lower()` restricted to ASCII letters. -/
def pyLower (s : String) : String :=
  String.mk (s.data.map Char.toLower)

/-- Auxiliary loop of Python `str.split('\n')`. -/
def splitLinesAux : List Char → List Char → List String
  | [], acc => [String.mk acc.reverse]
  | c :: cs, acc =>
    if c = '\n' then String.mk acc.reverse :: splitLinesAux cs []
    else splitLinesAux cs (c :: acc)

/-- Python `str.split('\n')`: split at every newline, keeping empty
pieces. -/
def splitLines (s : String) : List String :=
  splitLinesAux s.data []

/-- Auxiliary character-list comparison for `str.startswith`. -/
def pyStartsWithAux : List Char → List Char → Bool
  | [], _ => true
  | _ :: _, [] => false
  | c :: cs, d :: ds => c = d && pyStartsWithAux cs ds

/-- Python `s.startswith(pre)`. -/
def pyStartsWith (s pre : String) : Bool :=
  pyStartsWithAux pre.data s.data

/-- Auxiliary loop of Python `str.isupper()`: true iff the string has no
lowercase character and at least one uppercase character (ASCII). -/
def pyIsUpperAux : List Char → Bool → Bool
  | [], cased => cased
  | c :: cs, cased =>
    if c.isLower then false
    else if c.isUpper then pyIsUpperAux cs true
    else pyIsUpperAux cs cased

/-- Python `str.isupper()`. -/
def pyIsUpper (s : String) : Bool :=
  pyIsUpperAux s.data false

/-- Auxiliary loop of Python `str.istitle()`: uppercase characters may only
follow uncased characters, lowercase characters only cased ones, and at
least one cased character must occur. -/
def pyIsTitleAux : List Char → Bool → Bool → Bool
  | [], _, cased => cased
  | c :: cs, prevCased, cased =>
    if c.isUpper then
      if prevCased then false else pyIsTitleAux cs true true
    else if c.isLower then
      if prevCased then pyIsTitleAux cs true true else false
    else pyIsTitleAux cs false cased

/-- Python `str.istitle()`. -/
def pyIsTitle (s : String) : Bool :=
  pyIsTitleAux s.data false false

/-- Auxiliary word counter for Python `len(str.split())`: counts the
maximal runs of non-whitespace characters. -/
def pyWordCountAux : List Char → Bool → Nat
  | [], _ => 0
  | c :: cs, inWord =>
    if pyIsSpace c then pyWordCountAux cs false
    else if inWord then pyWordCountAux cs true
    else 1 + pyWordCountAux cs true

/-- Python `len(str.split())`: the number of whitespace-separated words. -/
def pyWordCount (s : String) : Nat :=
  pyWordCountAux s.data false

/-- Python `dict` lookup `d.get(k)` over an association list whose keys
are unique (the invariant Python dicts maintain). -/
def dictGet? {α : Type} : List (String × α) → String → Option α
  | [], _ => none
  | p :: ps, k => if p.1 = k then some p.2 else dictGet? ps k

/-- Python `dict` membership test `k in d`. -/
def dictContains {α : Type} (d : List (String × α)) (k : String) : Bool :=
  (dictGet? d k).isSome

/-- Python `dict` assignment `d[k] = v`: overwrite in place if the key is
present, otherwise append the binding at the end (insertion order). -/
def dictSet {α : Type} : List (String × α) → String → α → List (String × α)
  | [], k, v => [(k, v)]
  | p :: ps, k, v => if p.1 = k then (k, v) :: ps else p :: dictSet ps k v

/-- Looking up a key just written returns the written value. -/
theorem dictGet?_dictSet {α : Type} (d : List (String × α)) (k : String)
    (v : α) : dictGet? (dictSet d k v) k = some v := by
  induction d with
  | nil => simp [dictSet, dictGet?]
  | cons p ps ih =>
    by_cases hp : p.1 = k
    · simp [dictSet, hp, dictGet?]
    · simp [dictSet, hp, dictGet?, ih]

/-- Writing one key leaves every other key's binding unchanged. -/
theorem dictGet?_dictSet_ne {α : Type} (d : List (String × α))
    (k k' : String) (v : α) (hne : k ≠ k') :
    dictGet? (dictSet d k v) k' = dictGet? d k' := by
  induction d with
  | nil => simp [dictSet, dictGet?, hne]
  | cons p ps ih =>
    by_cases hp : p.1 = k
    · simp [dictSet, hp, dictGet?, hne]
    · simp [dictSet, hp, dictGet?, ih]

/-! ## Difficulty distribution (`QuestionGenerator.generate_questions`) -/

/-- The per-difficulty bucket counts computed before generation. -/
structure DifficultyDist where
  easy : Nat
  medium : Nat
  hard : Nat
deriving DecidableEq, Repr

/-- The `difficulty_distribution` table of
`QuestionGenerator.generate_questions` followed by the
`.get(difficulty, mixed)` lookup: a named difficulty puts all questions
in its own bucket; any other string (including `"mixed"`) uses the
floor-division split with the `% 3` correction terms of the source. -/
def difficultyDistribution (numQuestions : Nat) (difficulty : String) :
    DifficultyDist :=
  if difficulty = "easy" then ⟨numQuestions, 0, 0⟩
  else if difficulty = "medium" then ⟨0, numQuestions, 0⟩
  else if difficulty = "hard" then ⟨0, 0, numQuestions⟩
  else
    ⟨numQuestions / 3 + (if numQuestions % 3 > 0 then 1 else 0),
     numQuestions / 3 + (if numQuestions % 3 > 1 then 1 else 0),
     numQuestions / 3⟩

/-! ## Number-of-questions validation
(`InputValidator.validate_num_questions` and the substitution performed
by the `/api/generate-quiz` handler in `app.py`) -/

/-- The requested count as it reaches the validator: either a value
coercible to an integer, or a value on which `int(...)` raises. -/
inductive NumInput where
  | int : Int → NumInput
  | nonInt : NumInput
deriving DecidableEq, Repr

/-- Result dictionary of `InputValidator.validate_num_questions`. -/
structure NumValidation where
  valid : Bool
  numQuestions : Option Int
  default : Option Int
deriving DecidableEq, Repr

/-- `InputValidator.validate_num_questions`: non-integers and counts
below 1 fall back to default 5, counts above 20 to default 20, and
in-range counts are valid unchanged. -/
def validateNumQuestions : NumInput → NumValidation
  | .nonInt => ⟨false, none, some 5⟩
  | .int n =>
    if n < 1 then ⟨false, none, some 5⟩
    else if n > 20 then ⟨false, none, some 20⟩
    else ⟨true, some n, none⟩

/-- The `generate_quiz` handler in `app.py`: when validation fails the
requested count is silently replaced by the validator's default,
otherwise it is used unchanged. -/
def effectiveNumQuestions (num : NumInput) : NumInput :=
  let v := validateNumQuestions num
  if v.valid then num else .int (v.default.getD 5)

/-! ## Material store (`AITutor.add_material`) -/

/-- Result dictionary returned by `AITutor.add_material`. -/
structure AddResult where
  success : Bool
  materialId : String
  message : String
deriving DecidableEq, Repr

/-- `AITutor.add_material`: unconditionally binds `material_id` to the
given content in `self.materials` and reports success. -/
def addMaterial {α : Type} (materials : List (String × α))
    (materialId : String) (content : α) : List (String × α) × AddResult :=
  (dictSet materials materialId content,
   ⟨true, materialId, "Material added successfully"⟩)

/-! ## Theorems for claims C1, C10, C3 -/

/-- C1: the difficulty distribution assigns all questions to a single
named difficulty, and for `mixed` splits by floor-division with the
remainder going first to easy then medium, never hard — which equals
`((n+2)/3, (n+1)/3, n/3)` and sums to `n`.  The spec's worked example
for 7 questions is corrected to `{easy:3, medium:2, hard:2}` (the code
never produces `{easy:3, medium:3, hard:1}`). -/
theorem C1_difficulty_distribution (n : Nat) :
    difficultyDistribution n "easy" = ⟨n, 0, 0⟩ ∧
    difficultyDistribution n "medium" = ⟨0, n, 0⟩ ∧
    difficultyDistribution n "hard" = ⟨0, 0, n⟩ ∧
    difficultyDistribution n "mixed" = ⟨(n + 2) / 3, (n + 1) / 3, n / 3⟩ ∧
    (difficultyDistribution n "mixed").easy +
      (difficultyDistribution n "mixed").medium +
      (difficultyDistribution n "mixed").hard = n ∧
    difficultyDistribution 5 "mixed" = ⟨2, 2, 1⟩ ∧
    difficultyDistribution 6 "mixed" = ⟨2, 2, 2⟩ ∧
    difficultyDistribution 7 "mixed" = ⟨3, 2, 2⟩ := by
  have hmx : difficultyDistribution n "mixed" =
      ⟨n / 3 + (if n % 3 > 0 then 1 else 0),
       n / 3 + (if n % 3 > 1 then 1 else 0), n / 3⟩ := rfl
  refine ⟨rfl, rfl, rfl, ?_, ?_, by decide, by decide, by decide⟩
  · rw [hmx]
    have h1 : n / 3 + (if n % 3 > 0 then 1 else 0) = (n + 2) / 3 := by
      by_cases h : n % 3 > 0 <;> simp [h] <;> omega
    have h2 : n / 3 + (if n % 3 > 1 then 1 else 0) = (n + 1) / 3 := by
      by_cases h : n % 3 > 1 <;> simp [h] <;> omega
    rw [h1, h2]
  · rw [hmx]
    simp only
    by_cases h0 : n % 3 > 0 <;> by_cases h1 : n % 3 > 1 <;>
      simp [h0, h1] <;> omega

/-- C1 counterexample: on 7 questions with `mixed` difficulty the code
computes `{easy:3, medium:2, hard:2}`, not the `{easy:3, medium:3,
hard:1}` asserted by the claim. -/
theorem C1_counterexample :
    difficultyDistribution 7 "mixed" = ⟨3, 2, 2⟩ ∧
    difficultyDistribution 7 "mixed" ≠ ⟨3, 3, 1⟩ := by decide

/-- Closed form of the validator-plus-substitution pipeline on integer
inputs. -/
theorem effectiveNumQuestions_int (n : Int) :
    effectiveNumQuestions (.int n) =
      if n < 1 then .int 5 else if n > 20 then .int 20 else .int n := by
  unfold effectiveNumQuestions validateNumQuestions
  by_cases h1 : n < 1
  · simp [h1]
  · by_cases h2 : n > 20
    · simp [h1, h2]
    · simp [h1, h2]

/-- C10: a requested count in `[1, 20]` is used unchanged; a count above
20 is replaced by 20; a count below 1 or a non-coercible value is
replaced by 5; and the effective count is always an integer in
`[1, 20]`, so generation proceeds without a hard failure. -/
theorem C10_num_questions (n : Int) :
    (1 ≤ n → n ≤ 20 → effectiveNumQuestions (.int n) = .int n) ∧
    (n > 20 → effectiveNumQuestions (.int n) = .int 20) ∧
    (n < 1 → effectiveNumQuestions (.int n) = .int 5) ∧
    effectiveNumQuestions .nonInt = .int 5 ∧
    ∃ m : Int, effectiveNumQuestions (.int n) = .int m ∧ 1 ≤ m ∧ m ≤ 20 := by
  refine ⟨?_, ?_, ?_, rfl, ?_⟩
  · intro h1 h2
    rw [effectiveNumQuestions_int, if_neg (by omega), if_neg (by omega)]
  · intro h
    rw [effectiveNumQuestions_int, if_neg (by omega), if_pos h]
  · intro h
    rw [effectiveNumQuestions_int, if_pos h]
  · rw [effectiveNumQuestions_int]
    by_cases h1 : n < 1
    · exact ⟨5, by rw [if_pos h1], by omega, by omega⟩
    · by_cases h2 : n > 20
      · exact ⟨20, by rw [if_neg h1, if_pos h2], by omega, by omega⟩
      · exact ⟨n, by rw [if_neg h1, if_neg h2], by omega, by omega⟩

/-- C10 witness: concrete instances of each clause. -/
theorem C10_num_questions_witness :
    effectiveNumQuestions (.int 7) = .int 7 ∧
    effectiveNumQuestions (.int 25) = .int 20 ∧
    effectiveNumQuestions (.int 0) = .int 5 ∧
    effectiveNumQuestions .nonInt = .int 5 :=
  ⟨(C10_num_questions 7).1 (by decide) (by decide),
   (C10_num_questions 25).2.1 (by decide),
   (C10_num_questions 0).2.2.1 (by decide),
   (C10_num_questions 0).2.2.2.1⟩

/-- C3 amended: `add_material` never fails on a duplicate id — it always
reports success and rebinds the id to the new content, so a stored
Material can be replaced within the store's lifetime. -/
theorem C3_add_material_overwrites {α : Type} (materials : List (String × α))
    (materialId : String) (content old : α)
    (_hold : dictGet? materials materialId = some old) :
    (addMaterial materials materialId content).2.success = true ∧
    dictGet? (addMaterial materials materialId content).1 materialId =
      some content :=
  ⟨rfl, dictGet?_dictSet materials materialId content⟩

/-- C3 witness: overwriting a present id succeeds and rebinds it. -/
theorem C3_add_material_overwrites_witness :
    (addMaterial [("m", 1)] "m" 2).2.success = true ∧
    dictGet? (addMaterial [("m", 1)] "m" 2).1 "m" = some 2 :=
  C3_add_material_overwrites [("m", 1)] "m" 2 1 (by decide)

/-- C3 counterexample: with `1` already stored under id `"m"`, a second
`add_material` for `"m"` reports success (no `DuplicateIdError`) and the
stored value changes to the new content. -/
theorem C3_counterexample :
    (addMaterial [("m", 1)] "m" 2).2.success = true ∧
    dictGet? (addMaterial [("m", 1)] "m" 2).1 "m" = some 2 ∧
    dictGet? (addMaterial [("m", 1)] "m" 2).1 "m" ≠ some 1 := by decide

/-! ## Notes cache (`AITutor.generate_study_notes`) -/

/-- The part of a stored material that `generate_study_notes` reads:
`material.get('full_text', '')`. -/
structure Material where
  fullText : String
deriving DecidableEq, Repr

/-- Result dictionary of `NoteGenerator.generate_notes` (and of the early
failure returns of `generate_study_notes`). -/
structure NotesResult where
  success : Bool
  notes : String
  error : Option String
deriving DecidableEq, Repr

/-- The tutor's shared mutable state: the material store and the notes
cache. -/
structure TutorState where
  materials : List (String × Material)
  notesCache : List (String × NotesResult)
deriving DecidableEq, Repr

/-- Python `str(x)` of the `subject` argument as interpolated by the
f-string cache key: `None` prints as the string `"None"`. -/
def pyStrOpt : Option String → String
  | none => "None"
  | some s => s

/-- The cache key `f"{material_id}_{subject}_{level}_{focus}"` of
`generate_study_notes`. -/
def notesCacheKey (materialId : String) (subject : Option String)
    (level focus : String) : String :=
  materialId ++ "_" ++ pyStrOpt subject ++ "_" ++ level ++ "_" ++ focus

/-- `AITutor.generate_study_notes`, with the external LLM-backed
`NoteGenerator.generate_notes` passed in as `gen`.  Returns the result,
the updated state, and the number of times `gen` was invoked during the
call (0 or 1). -/
def generateStudyNotes
    (gen : String → Option String → String → String → NotesResult)
    (st : TutorState) (materialId : String) (subject : Option String)
    (level focus : String) : NotesResult × TutorState × Nat :=
  match dictGet? st.materials materialId with
  | none => (⟨false, "", some "Material not found"⟩, st, 0)
  | some material =>
    let content := material.fullText
    if content = "" then
      (⟨false, "", some "No content found in material"⟩, st, 0)
    else
      let cacheKey := notesCacheKey materialId subject level focus
      match dictGet? st.notesCache cacheKey with
      | some cached => (cached, st, 0)
      | none =>
        let result := gen content subject level focus
        if result.success then
          (result,
           { st with notesCache := dictSet st.notesCache cacheKey result },
           1)
        else (result, st, 1)

/-! ## Theorems for claim C8 -/

/-- C8 amended: per call the generator is invoked at most once; after a
successful call, repeating the call with the same arguments returns the
same result from the cache with zero generator invocations; and the
cache is only ever extended at the call's own key with the successful
result — a failed generation leaves the cache untouched, so a later
retry recomputes.  Keys are the underscore-joined strings
`f"{material_id}_{subject}_{level}_{focus}"`, not the 4-tuples. -/
theorem C8_notes_cache
    (gen : String → Option String → String → String → NotesResult)
    (st : TutorState) (materialId : String) (subject : Option String)
    (level focus : String) :
    (generateStudyNotes gen st materialId subject level focus).2.2 ≤ 1 ∧
    ((generateStudyNotes gen st materialId subject level focus).1.success =
        true →
      generateStudyNotes gen
          (generateStudyNotes gen st materialId subject level focus).2.1
          materialId subject level focus =
        ((generateStudyNotes gen st materialId subject level focus).1,
         (generateStudyNotes gen st materialId subject level focus).2.1,
         0)) ∧
    ((generateStudyNotes gen st materialId subject level focus).2.1.notesCache
        = st.notesCache ∨
      ((generateStudyNotes gen st materialId subject level focus).1.success =
          true ∧
        (generateStudyNotes gen st materialId subject level focus).2.1.notesCache
          = dictSet st.notesCache
              (notesCacheKey materialId subject level focus)
              (generateStudyNotes gen st materialId subject level focus).1)) := by
  cases hm : dictGet? st.materials materialId with
  | none =>
    have he : generateStudyNotes gen st materialId subject level focus =
        (⟨false, "", some "Material not found"⟩, st, 0) := by
      unfold generateStudyNotes; rw [hm]
    rw [he]
    exact ⟨Nat.zero_le _, fun h => by simp at h, Or.inl rfl⟩
  | some material =>
    by_cases hc : material.fullText = ""
    · have he : generateStudyNotes gen st materialId subject level focus =
          (⟨false, "", some "No content found in material"⟩, st, 0) := by
        unfold generateStudyNotes; rw [hm]; simp [hc]
      rw [he]
      exact ⟨Nat.zero_le _, fun h => by simp at h, Or.inl rfl⟩
    · cases hk : dictGet? st.notesCache
          (notesCacheKey materialId subject level focus) with
      | some cached =>
        have he : generateStudyNotes gen st materialId subject level focus =
            (cached, st, 0) := by
          unfold generateStudyNotes; rw [hm]; simp [hc, hk]
        rw [he]
        exact ⟨Nat.zero_le _, fun _ => he, Or.inl rfl⟩
      | none =>
        by_cases hs :
            (gen material.fullText subject level focus).success = true
        · have he : generateStudyNotes gen st materialId subject level focus =
              (gen material.fullText subject level focus,
               ⟨st.materials,
                dictSet st.notesCache
                  (notesCacheKey materialId subject level focus)
                  (gen material.fullText subject level focus)⟩,
               1) := by
            unfold generateStudyNotes; rw [hm]; simp [hc, hk, hs]
          rw [he]
          refine ⟨le_refl 1, fun _ => ?_, Or.inr ⟨hs, rfl⟩⟩
          unfold generateStudyNotes
          simp only
          rw [hm]
          simp [hc, dictGet?_dictSet]
        · have he : generateStudyNotes gen st materialId subject level focus =
              (gen material.fullText subject level focus, st, 1) := by
            unfold generateStudyNotes; rw [hm]; simp [hc, hk, hs]
          rw [he]
          exact ⟨le_refl 1, fun h => absurd h hs, Or.inl rfl⟩

/-- Generator used by the C8 witness and counterexample: always succeeds
and records the content it was given. -/
def genEcho : String → Option String → String → String → NotesResult :=
  fun content _ _ _ => ⟨true, "notes for " ++ content, none⟩

/-- Initial state used by the C8 witness. -/
def st8 : TutorState := ⟨[("m", ⟨"t"⟩)], []⟩

/-- C8 witness: a concrete successful first call, after which the second
identical call is served from the cache with zero generator
invocations. -/
theorem C8_notes_cache_witness :
    generateStudyNotes genEcho
        (generateStudyNotes genEcho st8 "m" none "l" "f").2.1
        "m" none "l" "f" =
      ((generateStudyNotes genEcho st8 "m" none "l" "f").1,
       (generateStudyNotes genEcho st8 "m" none "l" "f").2.1, 0) :=
  (C8_notes_cache genEcho st8 "m" none "l" "f").2.1 (by decide)

/-- Initial state used by the C8 counterexample: two distinct materials
with different contents. -/
def st8c : TutorState := ⟨[("m", ⟨"text2"⟩), ("m_a", ⟨"text1"⟩)], []⟩

/-- C8 counterexample: the composite keys `("m_a", "b", "l", "f")` and
`("m", "a_b", "l", "f")` are distinct, yet after computing notes for the
first, a call with the second performs zero generator invocations and
returns the notes computed from material `"m_a"`'s content — not the
result the generator would produce for material `"m"`'s own content —
so distinct composite keys are not memoized independently. -/
theorem C8_counterexample :
    (generateStudyNotes genEcho
        (generateStudyNotes genEcho st8c "m_a" (some "b") "l" "f").2.1
        "m" (some "a_b") "l" "f").2.2 = 0 ∧
    (generateStudyNotes genEcho
        (generateStudyNotes genEcho st8c "m_a" (some "b") "l" "f").2.1
        "m" (some "a_b") "l" "f").1.notes = "notes for text1" ∧
    genEcho "text2" (some "a_b") "l" "f" ≠
      (generateStudyNotes genEcho
          (generateStudyNotes genEcho st8c "m_a" (some "b") "l" "f").2.1
          "m" (some "a_b") "l" "f").1 ∧
    dictGet? st8c.materials "m" = some ⟨"text2"⟩ := by decide

/-! ## Heading heuristics (`PDFProcessor.extract_with_structure` and
`OCRProcessor.extract_with_structure`) -/

/-- The heading test of `PDFProcessor.extract_with_structure`:
`len(line) < 100 and (line.isupper() or line.istitle())`. -/
def isHeadingPDF (line : String) : Bool :=
  decide (line.length < 100) && (pyIsUpper line || pyIsTitle line)

/-- The heading test of `OCRProcessor.extract_with_structure`:
`len(line) < 100 and (line.isupper() or (line.istitle() and
len(line.split()) <= 5))`. -/
def isHeadingOCR (line : String) : Bool :=
  decide (line.length < 100) &&
    (pyIsUpper line || (pyIsTitle line && decide (pyWordCount line ≤ 5)))

/-- The heading classification rule as the spec states it for both
normalizers: heading iff length < 100 and (fully uppercase, or
title-case with at most 5 words).  Stated from the spec's words, for
comparison with the source-derived tests above. -/
def specHeadingRule (line : String) : Bool :=
  decide (line.length < 100) &&
    (pyIsUpper line || (pyIsTitle line && decide (pyWordCount line ≤ 5)))

/-- A line of exactly 100 characters, used to witness the length cutoff. -/
def hundredCharLine : String :=
  String.mk (List.replicate 100 'A')

/-! ## Theorems for claim C4 -/

/-- C4 amended: the OCR heading test is exactly the spec's rule; the PDF
heading test omits the at-most-5-words cap on title-case lines (heading
iff length < 100 and (uppercase or title-case)); both classify
`"INTRODUCTION"` as a heading and never classify a line of 100 or more
characters as a heading. -/
theorem C4_heading_rule :
    (∀ line : String, isHeadingOCR line = specHeadingRule line) ∧
    (∀ line : String, isHeadingPDF line =
      (decide (line.length < 100) && (pyIsUpper line || pyIsTitle line))) ∧
    isHeadingPDF "INTRODUCTION" = true ∧
    isHeadingOCR "INTRODUCTION" = true ∧
    (∀ line : String, 100 ≤ line.length →
      isHeadingPDF line = false ∧ isHeadingOCR line = false) := by
  refine ⟨fun _ => rfl, fun _ => rfl, by decide, by decide, ?_⟩
  intro line hlen
  have hd : decide (line.length < 100) = false := by
    simp only [decide_eq_false_iff_not]
    omega
  constructor
  · unfold isHeadingPDF; rw [hd]; rfl
  · unfold isHeadingOCR; rw [hd]; rfl

/-- C4 witness: concrete instances — a 100-character line is rejected by
both heading tests. -/
theorem C4_heading_rule_witness :
    isHeadingPDF hundredCharLine = false ∧
    isHeadingOCR hundredCharLine = false :=
  C4_heading_rule.2.2.2.2 hundredCharLine (by decide)

/-- C4 counterexample: the title-case six-word line
`"Aa Bb Cc Dd Ee Ff"` (17 characters) is classified as a heading by the
PDF normalizer, although the claimed rule (title-case only up to 5
words) classifies it as a non-heading. -/
theorem C4_counterexample :
    isHeadingPDF "Aa Bb Cc Dd Ee Ff" = true ∧
    specHeadingRule "Aa Bb Cc Dd Ee Ff" = false ∧
    pyWordCount "Aa Bb Cc Dd Ee Ff" = 6 := by decide

/-! ## Structure normalizers (PDF, OCR, Word) -/

/-- A structured section produced by the PDF/OCR normalizers
(`{'heading': ..., 'content': [...]}`). -/
structure PdfSection where
  heading : String
  content : List String
deriving DecidableEq, Repr

/-- The conditional append `if current_section['content']:
structured_content.append(current_section)` shared by the flush points
of the PDF and OCR normalizers. -/
def flushSection (acc : List PdfSection) (cur : PdfSection) :
    List PdfSection :=
  if cur.content ≠ [] then acc ++ [cur] else acc

/-- The line walk of `PDFProcessor.extract_with_structure`: strip each
line, skip empties, start a new section at each heading-classified line
(flushing the current one if it has content), otherwise append the line
to the current section; the trailing section is flushed at end of input
if it has content. -/
def pdfStructLoop : List String → PdfSection → List PdfSection →
    List PdfSection
  | [], cur, acc => flushSection acc cur
  | l :: ls, cur, acc =>
    if pyStrip l = "" then pdfStructLoop ls cur acc
    else if isHeadingPDF (pyStrip l) then
      pdfStructLoop ls ⟨pyStrip l, []⟩ (flushSection acc cur)
    else pdfStructLoop ls ⟨cur.heading, cur.content ++ [pyStrip l]⟩ acc

/-- `PDFProcessor.extract_with_structure` on the extracted full text:
split on newlines and walk with the default `"Introduction"` section. -/
def pdfExtractStructure (fullText : String) : List PdfSection :=
  pdfStructLoop (splitLines fullText) ⟨"Introduction", []⟩ []

/-- The line walk of `OCRProcessor.extract_with_structure`: same shape,
but the lines are pre-stripped and pre-filtered, and the OCR heading
test carries the 5-word cap. -/
def ocrStructLoop : List String → PdfSection → List PdfSection →
    List PdfSection
  | [], cur, acc => flushSection acc cur
  | line :: ls, cur, acc =>
    if isHeadingOCR line then
      ocrStructLoop ls ⟨line, []⟩ (flushSection acc cur)
    else ocrStructLoop ls ⟨cur.heading, cur.content ++ [line]⟩ acc

/-- `OCRProcessor.extract_with_structure` on the OCR full text:
`[line.strip() for line in text.split('\n') if line.strip()]` walked
with the default `"Content"` section. -/
def ocrExtractStructure (fullText : String) : List PdfSection :=
  ocrStructLoop (((splitLines fullText).map pyStrip).filter
      (fun l => !decide (l = "")))
    ⟨"Content", []⟩ []

/-- A Word paragraph as the DOCX normalizer sees it: its text and its
named style. -/
structure Para where
  text : String
  styleName : String
deriving DecidableEq, Repr

/-- A structured section produced by the DOCX (and slide) normalizers,
carrying a `level`. -/
structure DocSection where
  heading : String
  level : String
  content : List String
deriving DecidableEq, Repr

/-- The conditional append `if current_section and
current_section.get('content'): structured_content.append(...)` of
`DOCXProcessor.extract_with_structure`. -/
def flushDocSection (acc : List DocSection) (cur : Option DocSection) :
    List DocSection :=
  match cur with
  | some c => if c.content ≠ [] then acc ++ [c] else acc
  | none => acc

/-- The paragraph walk of `DOCXProcessor.extract_with_structure`: skip
blank paragraphs; a paragraph whose style name starts with `"Heading"`
flushes the current section (if any, with content) and starts a new one
at that heading; other paragraphs extend the current section, creating
a synthesized `"Introduction"` section if none is open yet. -/
def docxStructLoop : List Para → Option DocSection → List DocSection →
    List DocSection
  | [], cur, acc => flushDocSection acc cur
  | p :: ps, cur, acc =>
    if pyStrip p.text = "" then docxStructLoop ps cur acc
    else if pyStartsWith p.styleName "Heading" then
      docxStructLoop ps (some ⟨pyStrip p.text, p.styleName, []⟩)
        (flushDocSection acc cur)
    else
      match cur with
      | some c =>
        docxStructLoop ps
          (some ⟨c.heading, c.level, c.content ++ [pyStrip p.text]⟩) acc
      | none =>
        docxStructLoop ps (some ⟨"Introduction", "Body", [pyStrip p.text]⟩)
          acc

/-- `DOCXProcessor.extract_with_structure` on the document's paragraph
list. -/
def docxExtractStructure (paras : List Para) : List DocSection :=
  docxStructLoop paras none []

/-! ## Theorems for claim C9 -/

/-- Flushing preserves the all-sections-nonempty invariant. -/
theorem flushSection_content_ne (acc : List PdfSection) (cur : PdfSection)
    (hacc : ∀ s ∈ acc, s.content ≠ []) :
    ∀ s ∈ flushSection acc cur, s.content ≠ [] := by
  intro s hs
  unfold flushSection at hs
  by_cases h : cur.content ≠ []
  · rw [if_pos h] at hs
    rcases List.mem_append.mp hs with h1 | h1
    · exact hacc s h1
    · have := List.mem_singleton.mp h1
      subst this; exact h
  · rw [if_neg h] at hs
    exact hacc s hs

/-- Invariant for the PDF line walk: if every accumulated section has
content, so does every section of the final output. -/
theorem pdfStructLoop_content_ne (ls : List String) :
    ∀ (cur : PdfSection) (acc : List PdfSection),
      (∀ s ∈ acc, s.content ≠ []) →
      ∀ s ∈ pdfStructLoop ls cur acc, s.content ≠ [] := by
  induction ls with
  | nil =>
    intro cur acc hacc s hs
    exact flushSection_content_ne acc cur hacc s hs
  | cons l ls ih =>
    intro cur acc hacc s hs
    unfold pdfStructLoop at hs
    by_cases h0 : pyStrip l = ""
    · rw [if_pos h0] at hs
      exact ih cur acc hacc s hs
    · rw [if_neg h0] at hs
      by_cases h1 : isHeadingPDF (pyStrip l) = true
      · rw [if_pos h1] at hs
        exact ih _ _ (flushSection_content_ne acc cur hacc) s hs
      · rw [if_neg h1] at hs
        exact ih _ _ hacc s hs

/-- Invariant for the OCR line walk. -/
theorem ocrStructLoop_content_ne (ls : List String) :
    ∀ (cur : PdfSection) (acc : List PdfSection),
      (∀ s ∈ acc, s.content ≠ []) →
      ∀ s ∈ ocrStructLoop ls cur acc, s.content ≠ [] := by
  induction ls with
  | nil =>
    intro cur acc hacc s hs
    exact flushSection_content_ne acc cur hacc s hs
  | cons l ls ih =>
    intro cur acc hacc s hs
    unfold ocrStructLoop at hs
    by_cases h1 : isHeadingOCR l = true
    · rw [if_pos h1] at hs
      exact ih _ _ (flushSection_content_ne acc cur hacc) s hs
    · rw [if_neg h1] at hs
      exact ih _ _ hacc s hs

/-- Flushing preserves the invariant for DOCX sections. -/
theorem flushDocSection_content_ne (acc : List DocSection)
    (cur : Option DocSection) (hacc : ∀ s ∈ acc, s.content ≠ []) :
    ∀ s ∈ flushDocSection acc cur, s.content ≠ [] := by
  intro s hs
  cases cur with
  | none => exact hacc s hs
  | some c =>
    simp only [flushDocSection] at hs
    by_cases h : c.content ≠ []
    · rw [if_pos h] at hs
      rcases List.mem_append.mp hs with h1 | h1
      · exact hacc s h1
      · have := List.mem_singleton.mp h1
        subst this; exact h
    · rw [if_neg h] at hs
      exact hacc s hs

/-- Invariant for the DOCX paragraph walk. -/
theorem docxStructLoop_content_ne (ps : List Para) :
    ∀ (cur : Option DocSection) (acc : List DocSection),
      (∀ s ∈ acc, s.content ≠ []) →
      ∀ s ∈ docxStructLoop ps cur acc, s.content ≠ [] := by
  induction ps with
  | nil =>
    intro cur acc hacc s hs
    exact flushDocSection_content_ne acc cur hacc s hs
  | cons p ps ih =>
    intro cur acc hacc s hs
    unfold docxStructLoop at hs
    by_cases h0 : pyStrip p.text = ""
    · rw [if_pos h0] at hs
      exact ih cur acc hacc s hs
    · rw [if_neg h0] at hs
      by_cases h1 : pyStartsWith p.styleName "Heading" = true
      · rw [if_pos h1] at hs
        exact ih _ _ (flushDocSection_content_ne acc cur hacc) s hs
      · rw [if_neg h1] at hs
        cases cur with
        | some c => exact ih _ _ hacc s hs
        | none => exact ih _ _ hacc s hs

/-- C9: every section emitted by the PDF, OCR, or Word structure
normalizer has a non-empty content-line list; contentless sections
(including the trailing one) are dropped, never emitted. -/
theorem C9_sections_nonempty :
    (∀ text : String, ∀ s ∈ pdfExtractStructure text, s.content ≠ []) ∧
    (∀ text : String, ∀ s ∈ ocrExtractStructure text, s.content ≠ []) ∧
    (∀ paras : List Para, ∀ s ∈ docxExtractStructure paras,
      s.content ≠ []) :=
  ⟨fun _ s hs =>
      pdfStructLoop_content_ne _ _ _ (fun t ht => absurd ht (by simp)) s hs,
   fun _ s hs =>
      ocrStructLoop_content_ne _ _ _ (fun t ht => absurd ht (by simp)) s hs,
   fun _ s hs =>
      docxStructLoop_content_ne _ _ _ (fun t ht => absurd ht (by simp)) s hs⟩

/-- C9 witness: concrete runs of each of the three normalizers contain a
section with non-empty content established through the theorem. -/
theorem C9_sections_nonempty_witness :
    (PdfSection.mk "HEAD" ["body"]).content ≠ [] ∧
    (DocSection.mk "Introduction" "Body" ["x"]).content ≠ [] :=
  ⟨C9_sections_nonempty.1 "HEAD\nbody" ⟨"HEAD", ["body"]⟩ (by decide),
   C9_sections_nonempty.2.2 [⟨"x", "Normal"⟩]
     ⟨"Introduction", "Body", ["x"]⟩ (by decide)⟩

/-! ## Theorems for claim C6 -/

/-- A paragraph that the DOCX walk treats as a heading: non-blank text
and a style name starting with `"Heading"`. -/
def isHeadingPara (p : Para) : Bool :=
  !decide (pyStrip p.text = "") && pyStartsWith p.styleName "Heading"

/-- The number of heading paragraphs of a document. -/
def numHeadingParas (paras : List Para) : Nat :=
  (paras.filter isHeadingPara).length

/-- Whether a non-blank non-heading paragraph occurs before the first
heading paragraph. -/
def preHeadingContent (paras : List Para) : Bool :=
  (paras.takeWhile (fun p => !isHeadingPara p)).any
    (fun p => !decide (pyStrip p.text = ""))

/-- Whether every heading paragraph is followed by at least one
non-blank non-heading paragraph before the next heading or the end of
the document. -/
def headingsHaveContent : List Para → Bool
  | [] => true
  | p :: ps =>
    if isHeadingPara p then preHeadingContent ps && headingsHaveContent ps
    else headingsHaveContent ps

/-- The contribution of the still-open section to the final count,
given whether content will still arrive before the next heading. -/
def pendingCount (cur : Option DocSection) (moreContent : Bool) : Nat :=
  match cur with
  | some c => if c.content ≠ [] ∨ moreContent = true then 1 else 0
  | none => if moreContent = true then 1 else 0

/-- Flushing adds one section exactly when the open one has content. -/
theorem flushDocSection_length (acc : List DocSection)
    (cur : Option DocSection) :
    (flushDocSection acc cur).length = acc.length + pendingCount cur false := by
  cases cur with
  | none => simp [flushDocSection, pendingCount]
  | some c =>
    simp only [flushDocSection, pendingCount]
    by_cases h : c.content ≠ []
    · rw [if_pos h, if_pos (Or.inl h)]; simp
    · rw [if_neg h, if_neg (by simp [h])]; simp

/-- Counting invariant of the DOCX paragraph walk: assuming every
heading receives content, the number of emitted sections is the number
of headings plus one more section for the open one exactly when it is
or will become non-empty. -/
theorem docxStructLoop_length (ps : List Para) :
    ∀ (cur : Option DocSection) (acc : List DocSection),
      headingsHaveContent ps = true →
      (docxStructLoop ps cur acc).length =
        acc.length + numHeadingParas ps +
          pendingCount cur (preHeadingContent ps) := by
  induction ps with
  | nil =>
    intro cur acc _
    have e0 : preHeadingContent [] = false := rfl
    have e1 : numHeadingParas [] = 0 := rfl
    rw [show docxStructLoop [] cur acc = flushDocSection acc cur from rfl,
      flushDocSection_length, e0, e1]
    omega
  | cons p ps ih =>
    intro cur acc hh
    have hstep : docxStructLoop (p :: ps) cur acc =
        (if pyStrip p.text = "" then docxStructLoop ps cur acc
         else if pyStartsWith p.styleName "Heading" = true then
           docxStructLoop ps (some ⟨pyStrip p.text, p.styleName, []⟩)
             (flushDocSection acc cur)
         else
           match cur with
           | some c =>
             docxStructLoop ps
               (some ⟨c.heading, c.level, c.content ++ [pyStrip p.text]⟩) acc
           | none =>
             docxStructLoop ps
               (some ⟨"Introduction", "Body", [pyStrip p.text]⟩) acc) := rfl
    by_cases h0 : pyStrip p.text = ""
    · have hnp : isHeadingPara p = false := by
        simp [isHeadingPara, h0]
      have e1 : numHeadingParas (p :: ps) = numHeadingParas ps := by
        simp [numHeadingParas, List.filter_cons, hnp]
      have e2 : preHeadingContent (p :: ps) = preHeadingContent ps := by
        simp only [preHeadingContent, List.takeWhile_cons, hnp]
        simp [h0]
      have e3 : headingsHaveContent (p :: ps) = headingsHaveContent ps := by
        simp [headingsHaveContent, hnp]
      rw [e3] at hh
      rw [hstep, if_pos h0, e1, e2]
      exact ih cur acc hh
    · by_cases h1 : pyStartsWith p.styleName "Heading" = true
      · have hp : isHeadingPara p = true := by
          simp [isHeadingPara, h0, h1]
        have e1 : numHeadingParas (p :: ps) = numHeadingParas ps + 1 := by
          simp [numHeadingParas, List.filter_cons, hp]
        have e2 : preHeadingContent (p :: ps) = false := by
          simp [preHeadingContent, List.takeWhile_cons, hp]
        have hh2 : preHeadingContent ps = true ∧
            headingsHaveContent ps = true := by
          have h := hh
          simp only [headingsHaveContent, hp, if_pos, Bool.and_eq_true] at h
          exact h
        rw [hstep, if_neg h0, if_pos h1, ih _ _ hh2.2,
          flushDocSection_length, e1, e2]
        have hnew : pendingCount (some ⟨pyStrip p.text, p.styleName, []⟩)
            (preHeadingContent ps) = 1 := by
          simp [pendingCount, hh2.1]
        rw [hnew]
        omega
      · have hnp : isHeadingPara p = false := by
          simp [isHeadingPara, h1]
        have e1 : numHeadingParas (p :: ps) = numHeadingParas ps := by
          simp [numHeadingParas, List.filter_cons, hnp]
        have e2 : preHeadingContent (p :: ps) = true := by
          simp only [preHeadingContent, List.takeWhile_cons, hnp]
          simp [h0]
        have e3 : headingsHaveContent (p :: ps) = headingsHaveContent ps := by
          simp [headingsHaveContent, hnp]
        rw [e3] at hh
        rw [hstep, if_neg h0, if_neg h1, e1, e2]
        cases cur with
        | some c =>
          rw [ih _ _ hh]
          have hl : pendingCount
              (some ⟨c.heading, c.level, c.content ++ [pyStrip p.text]⟩)
              (preHeadingContent ps) = 1 := by
            simp [pendingCount]
          have hr : pendingCount (some c) true = 1 := by
            simp [pendingCount]
          rw [hl, hr]
        | none =>
          rw [ih _ _ hh]
          have hl : pendingCount
              (some ⟨"Introduction", "Body", [pyStrip p.text]⟩)
              (preHeadingContent ps) = 1 := by
            simp [pendingCount]
          have hr : pendingCount none true = 1 := by
            simp [pendingCount]
          rw [hl, hr]

/-- C6 amended: provided every heading paragraph is followed by at least
one non-blank body paragraph before the next heading or end of
document, a document with N headings yields exactly N+1 sections when a
non-blank paragraph precedes the first heading, else exactly N.
Without that proviso, contentless heading sections are dropped and the
count is lower. -/
theorem C6_section_count (paras : List Para)
    (h : headingsHaveContent paras = true) :
    (docxExtractStructure paras).length =
      numHeadingParas paras +
        (if preHeadingContent paras = true then 1 else 0) := by
  have := docxStructLoop_length paras none [] h
  simpa [docxExtractStructure, pendingCount] using this

/-- Document used by the C6 witness: one pre-heading paragraph and two
headings, each with a body paragraph. -/
def parasDemo : List Para :=
  [⟨"intro text", "Normal"⟩, ⟨"Alpha", "Heading 1"⟩, ⟨"alpha body", "Normal"⟩,
   ⟨"Beta", "Heading 2"⟩, ⟨"beta body", "Normal"⟩]

/-- C6 witness: on a concrete document whose headings all have content
the emitted section count is N+1 = 3. -/
theorem C6_section_count_witness :
    (docxExtractStructure parasDemo).length =
      numHeadingParas parasDemo +
        (if preHeadingContent parasDemo = true then 1 else 0) :=
  C6_section_count parasDemo (by decide)

/-- Document refuting the exact N+1 count: the first heading is
immediately followed by another heading, so its section is contentless
and dropped. -/
def parasGap : List Para :=
  [⟨"x", "Normal"⟩, ⟨"Alpha", "Heading 1"⟩, ⟨"Beta", "Heading 1"⟩,
   ⟨"y", "Normal"⟩]

/-- C6 counterexample: a document with 2 headings and a non-empty
pre-heading run yields 2 sections, not the claimed 2+1 = 3 — the
contentless section of the first heading is dropped. -/
theorem C6_counterexample :
    preHeadingContent parasGap = true ∧
    numHeadingParas parasGap = 2 ∧
    (docxExtractStructure parasGap).length = 2 ∧
    (docxExtractStructure parasGap).length ≠ numHeadingParas parasGap + 1 := by
  decide

/-! ## Slide decks (`PPTXProcessor.extract_text` /
`extract_with_structure`) -/

/-- A slide shape as the extractor probes it: `text` is `none` when the
shape has no `text` attribute, otherwise the raw text; `hasTextFrame`
models `shape.has_text_frame`. -/
structure Shape where
  text : Option String
  hasTextFrame : Bool
deriving DecidableEq, Repr

/-- One entry of `slides_content` built by `PPTXProcessor.extract_text`. -/
structure SlideContent where
  slideNumber : Nat
  title : String
  content : List String
  fullText : String
deriving DecidableEq, Repr

/-- Python `'\n'.join(...)`. -/
def joinLines : List String → String
  | [] => ""
  | [s] => s
  | s :: ss => s ++ "\n" ++ joinLines ss

/-- The body of the shape loop of `extract_text`: a shape with non-blank
text is appended to the slide's text list, and becomes the title when no
title is set yet and the shape has a text frame. -/
def slideShapesStep (st : List String × String) (shape : Shape) :
    List String × String :=
  match shape.text with
  | none => st
  | some t =>
    if pyStrip t = "" then st
    else
      (st.1 ++ [pyStrip t],
       if st.2 = "" ∧ shape.hasTextFrame = true then pyStrip t else st.2)

/-- The per-slide part of `PPTXProcessor.extract_text`: walk the shapes
accumulating `slide_text` and `slide_title`, then build the slide
record. -/
def slideExtract (slideNum : Nat) (shapes : List Shape) : SlideContent :=
  let r := shapes.foldl slideShapesStep ([], "")
  ⟨slideNum, r.2, r.1, joinLines r.1⟩

/-- The `enumerate(prs.slides, 1)` loop of `extract_text`. -/
def slidesExtractFrom : Nat → List (List Shape) → List SlideContent
  | _, [] => []
  | n, shapes :: rest =>
    slideExtract n shapes :: slidesExtractFrom (n + 1) rest

/-- The `slides` list of `PPTXProcessor.extract_text`. -/
def pptxExtractText (slides : List (List Shape)) : List SlideContent :=
  slidesExtractFrom 1 slides

/-- The section built from one slide record by
`PPTXProcessor.extract_with_structure`: heading is `slide['title'] or
f"Slide {n}"`, level is `f"Slide {n}"`, content is `slide['content']`. -/
def sectionOfSlide (slide : SlideContent) : DocSection :=
  ⟨if slide.title = "" then "Slide " ++ toString slide.slideNumber
   else slide.title,
   "Slide " ++ toString slide.slideNumber,
   slide.content⟩

/-- `PPTXProcessor.extract_with_structure`: one section per slide, in
slide order. -/
def pptxExtractStructure (slides : List (List Shape)) : List DocSection :=
  (pptxExtractText slides).map sectionOfSlide

/-- Closed form of the slide text list: the stripped texts of all
text-bearing shapes with non-blank text, in shape order. -/
def shapeTexts (shapes : List Shape) : List String :=
  shapes.filterMap (fun sh =>
    match sh.text with
    | none => none
    | some t => if pyStrip t = "" then none else some (pyStrip t))

/-- Closed form of the slide title: the stripped text of the first shape
with non-blank text and a text frame, or `""` when there is none. -/
def slideTitleOf : List Shape → String
  | [] => ""
  | sh :: rest =>
    match sh.text with
    | none => slideTitleOf rest
    | some t =>
      if pyStrip t = "" then slideTitleOf rest
      else if sh.hasTextFrame then pyStrip t
      else slideTitleOf rest

/-! ## Theorems for claim C5 -/

/-- The fold of the shape loop computes the closed forms. -/
theorem slideShapes_foldl (shapes : List Shape) :
    ∀ (ts : List String) (title : String),
      shapes.foldl slideShapesStep (ts, title) =
        (ts ++ shapeTexts shapes,
         if title = "" then slideTitleOf shapes else title) := by
  induction shapes with
  | nil =>
    intro ts title
    by_cases h : title = "" <;> simp [shapeTexts, slideTitleOf, h]
  | cons sh rest ih =>
    intro ts title
    rw [List.foldl_cons]
    cases htext : sh.text with
    | none =>
      rw [show slideShapesStep (ts, title) sh = (ts, title) by
        simp [slideShapesStep, htext]]
      rw [ih ts title]
      simp [shapeTexts, slideTitleOf, htext, List.filterMap_cons]
    | some t =>
      by_cases hblank : pyStrip t = ""
      · rw [show slideShapesStep (ts, title) sh = (ts, title) by
          simp [slideShapesStep, htext, hblank]]
        rw [ih ts title]
        simp [shapeTexts, slideTitleOf, htext, hblank, List.filterMap_cons]
      · have hstep : slideShapesStep (ts, title) sh =
            (ts ++ [pyStrip t],
             if title = "" ∧ sh.hasTextFrame = true then pyStrip t
             else title) := by
          simp [slideShapesStep, htext, hblank]
        rw [hstep]
        have htexts : shapeTexts (sh :: rest) =
            pyStrip t :: shapeTexts rest := by
          simp [shapeTexts, List.filterMap_cons, htext, hblank]
        rw [htexts]
        cases htf : sh.hasTextFrame with
        | true =>
          have htitle : slideTitleOf (sh :: rest) = pyStrip t := by
            simp [slideTitleOf, htext, hblank, htf]
          rw [htitle]
          by_cases ht0 : title = ""
          · rw [if_pos ⟨ht0, rfl⟩, ih]
            rw [if_neg hblank, if_pos ht0]
            simp
          · rw [if_neg (fun hc => ht0 hc.1), ih]
            rw [if_neg ht0, if_neg ht0]
            simp
        | false =>
          have htitle : slideTitleOf (sh :: rest) = slideTitleOf rest := by
            simp [slideTitleOf, htext, hblank, htf]
          rw [htitle]
          rw [if_neg (fun hc => Bool.false_ne_true hc.2), ih]
          simp

/-- Each slide record carries the slide number, the first non-blank
framed shape's text as title, and all non-blank shape texts as content. -/
theorem slideExtract_eq (n : Nat) (shapes : List Shape) :
    slideExtract n shapes =
      ⟨n, slideTitleOf shapes, shapeTexts shapes,
       joinLines (shapeTexts shapes)⟩ := by
  unfold slideExtract
  rw [slideShapes_foldl shapes [] ""]
  simp

/-- The enumerated slide walk produces one record per slide. -/
theorem slidesExtractFrom_length (slides : List (List Shape)) :
    ∀ n : Nat, (slidesExtractFrom n slides).length = slides.length := by
  induction slides with
  | nil => intro n; rfl
  | cons shapes rest ih =>
    intro n
    rw [show slidesExtractFrom n (shapes :: rest) =
      slideExtract n shapes :: slidesExtractFrom (n + 1) rest from rfl]
    simp [ih]

/-- Indexed characterization of the structured output, for any starting
slide number. -/
theorem pptxStructure_getD (slides : List (List Shape)) :
    ∀ (n i : Nat), i < slides.length →
      ((slidesExtractFrom n slides).map sectionOfSlide).getD i
          ⟨"", "", []⟩ =
        ⟨(if slideTitleOf (slides.getD i []) = ""
          then "Slide " ++ toString (n + i)
          else slideTitleOf (slides.getD i [])),
         "Slide " ++ toString (n + i),
         shapeTexts (slides.getD i [])⟩ := by
  induction slides with
  | nil => intro n i hi; simp at hi
  | cons shapes rest ih =>
    intro n i hi
    rw [show slidesExtractFrom n (shapes :: rest) =
      slideExtract n shapes :: slidesExtractFrom (n + 1) rest from rfl]
    cases i with
    | zero =>
      rw [List.map_cons, List.getD_cons_zero, slideExtract_eq]
      simp [sectionOfSlide]
    | succ i =>
      rw [List.map_cons, List.getD_cons_succ]
      have hi2 : i < rest.length := by
        simpa using Nat.lt_of_succ_lt_succ hi
      rw [ih (n + 1) i hi2]
      have : n + 1 + i = n + (i + 1) := by omega
      rw [this]
      simp

/-- C5 amended: the structured slide output has exactly one section per
slide in slide order; section i (0-based) has level `"Slide (i+1)"`; its
heading is the slide's title — the stripped text of the first shape
with non-blank text and a text frame, or the `"Slide (i+1)"` label when
the slide has no such shape; and its content lines are the stripped
texts of ALL text-bearing shapes of the slide in order, including the
title shape itself (the title is not excluded from the content). -/
theorem C5_slide_sections (slides : List (List Shape)) :
    (pptxExtractStructure slides).length = slides.length ∧
    (∀ i, i < slides.length →
      (pptxExtractStructure slides).getD i ⟨"", "", []⟩ =
        ⟨(if slideTitleOf (slides.getD i []) = ""
          then "Slide " ++ toString (i + 1)
          else slideTitleOf (slides.getD i [])),
         "Slide " ++ toString (i + 1),
         shapeTexts (slides.getD i [])⟩) := by
  constructor
  · unfold pptxExtractStructure pptxExtractText
    rw [List.length_map, slidesExtractFrom_length]
  · intro i hi
    unfold pptxExtractStructure pptxExtractText
    rw [pptxStructure_getD slides 1 i hi]
    have : 1 + i = i + 1 := by omega
    rw [this]

/-- C5 witness: a three-slide deck (title shape plus body shape each)
yields three sections with levels `"Slide 1"`, `"Slide 2"`, `"Slide 3"`,
computed through the theorem at index 0. -/
theorem C5_slide_sections_witness :
    (pptxExtractStructure
        [[⟨some "T1", true⟩, ⟨some "B1", true⟩],
         [⟨some "T2", true⟩, ⟨some "B2", true⟩],
         [⟨some "T3", true⟩, ⟨some "B3", true⟩]]).getD 0 ⟨"", "", []⟩ =
      ⟨"T1", "Slide 1", ["T1", "B1"]⟩ := by
  have h := (C5_slide_sections
    [[⟨some "T1", true⟩, ⟨some "B1", true⟩],
     [⟨some "T2", true⟩, ⟨some "B2", true⟩],
     [⟨some "T3", true⟩, ⟨some "B3", true⟩]]).2 0 (by decide)
  rw [h]
  decide

/-- C5 counterexample: on a slide with a title shape `"T"` and a body
shape `"B"` the emitted section's content is `["T", "B"]` — the title
shape's text is included — whereas the claim says the content lines are
the texts of all OTHER text-bearing shapes, i.e. `["B"]`. -/
theorem C5_counterexample :
    pptxExtractStructure [[⟨some "T", true⟩, ⟨some "B", true⟩]] =
      [⟨"T", "Slide 1", ["T", "B"]⟩] ∧
    (["T", "B"] : List String) ≠ ["B"] := by decide

/-! ## Extraction router (`DocumentProcessor.process_file`) -/

/-- Python `str.rfind(c)` over the character list: the index of the last
occurrence, or `-1`. -/
def pyRfind : List Char → Char → Int
  | [], _ => -1
  | x :: xs, c =>
    let r := pyRfind xs c
    if r ≥ 0 then r + 1
    else if x = c then 0 else -1

/-- Python `os.path.splitext` (POSIX): split at the last dot, provided
it lies after the last path separator and at least one non-dot character
of the basename precedes it; otherwise the extension is empty. -/
def splitext (p : String) : String × String :=
  let l := p.data
  let sepIndex := pyRfind l '/'
  let dotIndex := pyRfind l '.'
  if sepIndex < dotIndex then
    if ((l.drop (sepIndex + 1).toNat).take
        (dotIndex.toNat - (sepIndex + 1).toNat)).any
        (fun ch => !decide (ch = '.')) then
      (String.mk (l.take dotIndex.toNat), String.mk (l.drop dotIndex.toNat))
    else (p, "")
  else (p, "")

/-- The four extractor families of the router. -/
inductive ProcKind where
  | pdf | docx | pptx | ocr
deriving DecidableEq, Repr

/-- The `processor_map` of `DocumentProcessor.__init__`. -/
def processorMap : List (String × ProcKind) :=
  [(".pdf", .pdf), (".docx", .docx), (".doc", .docx), (".pptx", .pptx),
   (".ppt", .pptx), (".jpg", .ocr), (".jpeg", .ocr), (".png", .ocr),
   (".bmp", .ocr), (".tiff", .ocr), (".gif", .ocr)]

/-- The processor chosen by `process_file`: the lookup of the extension
of the lowercased path. -/
def routedProcessor (filePath : String) : Option ProcKind :=
  dictGet? processorMap (splitext (pyLower filePath)).2

/-- The result dictionary crossing the router boundary: the success
flag, the optional error string, an abstract remaining payload, and the
`file_path` entry the router adds. -/
structure ExtractOutcome where
  success : Bool
  error : Option String
  payload : String
  filePath : Option String
deriving DecidableEq, Repr

/-- `DocumentProcessor.process_file`, with the selected processor's
`extract_with_structure` / `extract_text` call passed in as `extract`
(the `Bool` argument is `extract_structure`; every processor has both
capabilities).  A raised exception inside the extractor is an
`Except.error`, converted by the router's `try/except` into a
`success=false` result. -/
def processFile
    (extract : ProcKind → Bool → String → Except String ExtractOutcome)
    (filePath : String) (extractStructure : Bool) : ExtractOutcome :=
  match routedProcessor filePath with
  | none =>
    ⟨false,
     some ("Unsupported file format: " ++ (splitext (pyLower filePath)).2),
     "", some filePath⟩
  | some proc =>
    match extract proc extractStructure filePath with
    | .ok r => { r with filePath := some filePath }
    | .error e => ⟨false, some e, "", some filePath⟩

/-! ## Theorems for claim C7 -/

/-- C7: routing depends only on the case-folded extension; an
unsupported extension yields the error result naming that extension and
is independent of the extractors (none is invoked); an extractor
exception becomes a `success=false` error result; an extractor success
is passed through with `file_path` added — the router never re-raises. -/
theorem C7_router
    (extract extract2 :
      ProcKind → Bool → String → Except String ExtractOutcome)
    (filePath : String) (es : Bool) :
    (∀ p q : String, pyLower p = pyLower q →
      routedProcessor p = routedProcessor q) ∧
    (routedProcessor filePath = none →
      processFile extract filePath es =
        ⟨false,
         some ("Unsupported file format: " ++
           (splitext (pyLower filePath)).2),
         "", some filePath⟩ ∧
      processFile extract filePath es = processFile extract2 filePath es) ∧
    (∀ proc e, routedProcessor filePath = some proc →
      extract proc es filePath = .error e →
      processFile extract filePath es = ⟨false, some e, "", some filePath⟩) ∧
    (∀ proc r, routedProcessor filePath = some proc →
      extract proc es filePath = .ok r →
      processFile extract filePath es =
        ⟨r.success, r.error, r.payload, some filePath⟩) := by
  refine ⟨?_, ?_, ?_, ?_⟩
  · intro p q h
    unfold routedProcessor
    rw [h]
  · intro h
    unfold processFile
    rw [h]
    exact ⟨rfl, rfl⟩
  · intro proc e h1 h2
    unfold processFile
    rw [h1]
    show (match extract proc es filePath with
          | Except.ok r =>
            ExtractOutcome.mk r.success r.error r.payload (some filePath)
          | Except.error e => ⟨false, some e, "", some filePath⟩) = _
    rw [h2]
  · intro proc r h1 h2
    unfold processFile
    rw [h1]
    show (match extract proc es filePath with
          | Except.ok r =>
            ExtractOutcome.mk r.success r.error r.payload (some filePath)
          | Except.error e => ⟨false, some e, "", some filePath⟩) = _
    rw [h2]

/-- Extractor oracle that always raises, for the C7 witness. -/
def extractFail : ProcKind → Bool → String → Except String ExtractOutcome :=
  fun _ _ _ => .error "boom"

/-- C7 witness: a `.txt` path produces the unsupported-format error via
the theorem, and a raising extractor on an uppercase `.PDF` path is
converted into a `success=false` result. -/
theorem C7_router_witness :
    processFile extractFail "notes.txt" true =
      ⟨false,
       some ("Unsupported file format: " ++
         (splitext (pyLower "notes.txt")).2),
       "", some "notes.txt"⟩ ∧
    processFile extractFail "A.PDF" true =
      ⟨false, some "boom", "", some "A.PDF"⟩ :=
  ⟨((C7_router extractFail extractFail "notes.txt" true).2.1 (by decide)).1,
   (C7_router extractFail extractFail "A.PDF" true).2.2.1 .pdf "boom"
     (by decide) rfl⟩

/-! ## Quiz generation parsing (`QuestionGenerator.generate_questions`) -/

/-- JSON values as parsed by `json.loads`. -/
inductive JValue where
  | null : JValue
  | bool : Bool → JValue
  | num : Int → JValue
  | str : String → JValue
  | arr : List JValue → JValue
  | obj : List (String × JValue) → JValue

/-- Python `s.endswith(suf)`. -/
def pyEndsWith (s suf : String) : Bool :=
  pyStartsWithAux suf.data.reverse s.data.reverse

/-- Python slice `s[n:]` (by code points). -/
def pyDropLeft (s : String) (n : Nat) : String :=
  String.mk (s.data.drop n)

/-- Python slice `s[:-n]` (by code points). -/
def pyDropRight (s : String) (n : Nat) : String :=
  String.mk (s.data.take (s.data.length - n))

/-- The code-fence stripping of `generate_questions` (lines 114–121):
strip, drop a leading ` ```json ` or ` ``` `, drop a trailing ` ``` `,
strip again. -/
def cleanResponse (response : String) : String :=
  let r0 := pyStrip response
  let r1 := if pyStartsWith r0 "```json" then pyDropLeft r0 7 else r0
  let r2 := if pyStartsWith r1 "```" then pyDropLeft r1 3 else r1
  let r3 := if pyEndsWith r2 "```" then pyDropRight r2 3 else r2
  pyStrip r3

/-- `questions_data.get('questions', [])`: the questions array of the
parsed object, defaulting to the empty list when the key is absent.
Returns `none` for the dynamic-failure shapes (a non-object top level,
where `.get` raises `AttributeError` and is caught by the generic
`except Exception`, or a non-array `questions` value, outside the shape
the prompt requests). -/
def questionsOf : JValue → Option (List JValue)
  | .obj fields =>
    match dictGet? fields "questions" with
    | some (.arr qs) => some qs
    | none => some []
    | some _ => none
  | _ => none

/-- The result dictionary of `generate_questions` after parsing. -/
structure QuizResult where
  success : Bool
  questions : List JValue
  totalQuestions : Nat
  subject : Option String
  difficulty : Option String
  error : Option String
  rawResponse : Option String

/-- Lines 123–145 of `generate_questions`: on a parse failure return
`success=false` with the raw (cleaned) response attached; on success
return the parsed questions verbatim with metadata — no per-question
structural check of any kind is performed. -/
def generateQuestionsFromParse (parse : Except String JValue)
    (cleaned : String) (subject : Option String) (difficulty : String) :
    QuizResult :=
  match parse with
  | .error e =>
    ⟨false, [], 0, none, none,
     some ("Failed to parse questions: " ++ e), some cleaned⟩
  | .ok j =>
    match questionsOf j with
    | some qs => ⟨true, qs, qs.length, subject, some difficulty, none, none⟩
    | none => ⟨false, [], 0, none, none, some "TypeError", none⟩

/-- `generate_questions` from the model response on, with `json.loads`
passed in as an oracle. -/
def generateQuestions (jsonLoads : String → Except String JValue)
    (response : String) (subject : Option String) (difficulty : String) :
    QuizResult :=
  generateQuestionsFromParse (jsonLoads (cleanResponse response))
    (cleanResponse response) subject difficulty

/-- Key presence in a parsed JSON object. -/
def jHasKey (fields : List (String × JValue)) (k : String) : Bool :=
  (dictGet? fields k).isSome

/-- The structural check the spec describes for one question (required
fields present, exactly 4 options for `multiple_choice`, 0–3 hints).
Stated from the spec's words, for comparison with the source behaviour. -/
def specQuestionValid : JValue → Bool
  | .obj fields =>
    jHasKey fields "id" && jHasKey fields "difficulty" &&
    jHasKey fields "question" && jHasKey fields "type" &&
    jHasKey fields "correct_answer" && jHasKey fields "explanation" &&
    jHasKey fields "key_concept" && jHasKey fields "hints" &&
    (match dictGet? fields "type" with
     | some (.str "multiple_choice") =>
       (match dictGet? fields "options" with
        | some (.arr opts) => decide (opts.length = 4)
        | _ => false)
     | _ => true) &&
    (match dictGet? fields "hints" with
     | some (.arr hs) => decide (hs.length ≤ 3)
     | _ => false)
  | _ => false

/-! ## Theorems for claim C2 -/

/-- C2 amended: the quiz pipeline performs no per-question structural
validation at all — whatever array sits under `questions` is returned
verbatim with `success=true` (no SchemaViolation error exists), and only
a JSON parse failure is rejected, carrying the raw response. -/
theorem C2_no_validation (fields : List (String × JValue))
    (qs : List JValue) (cleaned : String) (subject : Option String)
    (difficulty : String)
    (h : dictGet? fields "questions" = some (.arr qs)) :
    (generateQuestionsFromParse (.ok (.obj fields)) cleaned subject
        difficulty).success = true ∧
    (generateQuestionsFromParse (.ok (.obj fields)) cleaned subject
        difficulty).questions = qs ∧
    (∀ e, (generateQuestionsFromParse (.error e) cleaned subject
        difficulty).success = false ∧
      (generateQuestionsFromParse (.error e) cleaned subject
        difficulty).rawResponse = some cleaned) := by
  have hq : questionsOf (.obj fields) = some qs := by
    show (match dictGet? fields "questions" with
          | some (JValue.arr qs) => some qs
          | none => some []
          | some _ => none) = some qs
    rw [h]
  have he : generateQuestionsFromParse (.ok (.obj fields)) cleaned subject
      difficulty =
      ⟨true, qs, qs.length, subject, some difficulty, none, none⟩ := by
    show (match questionsOf (.obj fields) with
          | some qs =>
            QuizResult.mk true qs qs.length subject (some difficulty)
              none none
          | none =>
            ⟨false, [], 0, none, none, some "TypeError", none⟩) = _
    rw [hq]
  rw [he]
  exact ⟨rfl, rfl, fun e => ⟨rfl, rfl⟩⟩

/-- A `multiple_choice` question with only 3 options (and otherwise all
required fields). -/
def badQuestion : JValue :=
  .obj [("id", .num 1), ("difficulty", .str "easy"),
        ("question", .str "Q?"), ("type", .str "multiple_choice"),
        ("options", .arr [.str "A) 1", .str "B) 2", .str "C) 3"]),
        ("correct_answer", .str "A) 1"), ("explanation", .str "E"),
        ("key_concept", .str "K"), ("hints", .arr [])]

/-- C2 witness: the concrete parsed output containing the 3-option
question is accepted through the theorem. -/
theorem C2_no_validation_witness :
    (generateQuestionsFromParse
        (.ok (.obj [("questions", .arr [badQuestion])])) "" none
        "mixed").success = true :=
  (C2_no_validation [("questions", .arr [badQuestion])] [badQuestion] ""
    none "mixed" rfl).1

/-- C2 counterexample: a parsed output whose only question is a
`multiple_choice` question with 3 options — structurally invalid per
the claimed check — is returned wholesale with `success=true`; no
SchemaViolation rejection occurs. -/
theorem C2_counterexample :
    specQuestionValid badQuestion = false ∧
    (generateQuestionsFromParse
        (.ok (.obj [("questions", .arr [badQuestion])])) "" none
        "mixed").success = true ∧
    (generateQuestionsFromParse
        (.ok (.obj [("questions", .arr [badQuestion])])) "" none
        "mixed").questions = [badQuestion] :=
  ⟨rfl, rfl, rfl⟩

end FinalsArc
